import Mathlib

/-!
Shallow embedding of the rust-crud-api service (src/main.rs) and proofs about
its request handling, routing, serialization and startup schema.

The running application (actix-web) mounts a single handler, get_users, over a
shared Arc(Mutex(Client)).  A block of legacy handlers (handle_post_request,
handle_get_request, handle_get_all_request, handle_put_request,
handle_delete_request) sits inside a commented-out region of src/main.rs
(lines 23-48 and 66-173); those are embedded here as well, as plain functions,
because several spec sentences were written from them.  The helpers they call
(get_id, get_user_request_body, and the status-line constants OK_RESPONSE,
NOT_FOUND, INTERNAL_SERVER_ERROR) are defined nowhere in the repository; where
needed they are modelled from the spec, as flagged on each definition.

Conventions: Rust panics (.unwrap() on an error) are modelled by returning
none; fallible inputs (the body decode, the database connect, query results)
are explicit Except-typed parameters of each handler.
-/

namespace RustCrudApi

/-- JSON values, the codomain of serde_json serialization. -/
inductive Json where
  | null
  | num (n : Int)
  | str (s : String)
  | arr (xs : List Json)
  | obj (fields : List (String × Json))
deriving Repr

/-- Embeds struct User (src/main.rs lines 13-18): id is Option(i32), name and
email are Strings.  Machine integer i32 is modelled as Int with the range
constraint stated separately where it matters. -/
structure User where
  id : Option Int
  name : String
  email : String
deriving DecidableEq, Repr

def i32Min : Int := -2147483648

def i32Max : Int := 2147483647

/-- Decidable check that an optional id value fits in i32. -/
def idInRange : Option Int → Bool
  | none => true
  | some n => decide (i32Min ≤ n ∧ n ≤ i32Max)

/-- Serde derived Serialize for User: a JSON object with exactly the keys id,
name, email, in declaration order; Option(i32) serializes as null when None
and as a number otherwise. -/
def User.toJson (u : User) : Json :=
  Json.obj [("id", match u.id with
                   | none => Json.null
                   | some n => Json.num n),
            ("name", Json.str u.name),
            ("email", Json.str u.email)]

/-- Keys of a JSON object, in order; empty for non-objects. -/
def jsonKeys : Json → List String
  | Json.obj fields => fields.map (fun p => p.1)
  | _ => []

/-- First field of a JSON object with the given key. -/
def jsonField : Json → String → Option Json
  | Json.obj fields, k => (fields.find? (fun p => p.1 == k)).map (fun p => p.2)
  | _, _ => none

/-- Serde deserialization of an Option(i32) field value: null decodes to None,
an in-range number to Some, anything else is rejected. -/
def decodeOptI32 : Json → Option (Option Int)
  | Json.null => some none
  | Json.num k => if i32Min ≤ k ∧ k ≤ i32Max then some (some k) else none
  | _ => none

/-- Serde deserialization of a String field value. -/
def decodeStr : Json → Option String
  | Json.str s => some s
  | _ => none

/-- Serde derived Deserialize for User: expects an object; the Option field id
defaults to None when the key is absent; name and email are required strings. -/
def User.fromJson (j : Json) : Option User :=
  match j with
  | Json.obj _ =>
    match (match jsonField j "id" with
           | none => some none
           | some v => decodeOptI32 v),
          (jsonField j "name").bind decodeStr,
          (jsonField j "email").bind decodeStr with
    | some i, some nm, some em => some { id := i, name := nm, email := em }
    | _, _, _ => none
  | _ => none

/-- Digits of a decimal numeral; none on an empty list or any non-digit. -/
def parseDigits (cs : List Char) : Option Nat :=
  match cs with
  | [] => none
  | _ => cs.foldlM (fun acc c =>
      if c.isDigit then some (acc * 10 + (c.toNat - 48)) else none) 0

/-- Embeds str::parse::(i32) as used by the legacy handlers on the id path
segment: an optional sign followed by decimal digits, rejected when empty,
non-numeric, or out of the i32 range. -/
def parseI32 (s : String) : Option Int :=
  match s.toList with
  | '+' :: rest => (parseDigits rest).bind fun n =>
      if n ≤ 2147483647 then some (n : Int) else none
  | '-' :: rest => (parseDigits rest).bind fun n =>
      if n ≤ 2147483648 then some (-(n : Int)) else none
  | cs => (parseDigits cs).bind fun n =>
      if n ≤ 2147483647 then some (n : Int) else none

/-- Tokenizer for the CREATE TABLE statement: parentheses and commas are
single-character tokens, whitespace separates, everything else accumulates
into words.  The second argument is the reversed current word. -/
def tokenizeAux : List Char → List Char → List String
  | [], acc => if acc.isEmpty then [] else [String.mk acc.reverse]
  | c :: cs, acc =>
    if c = '(' ∨ c = ')' ∨ c = ',' then
      (if acc.isEmpty then [] else [String.mk acc.reverse])
        ++ String.singleton c :: tokenizeAux cs []
    else if c = ' ' ∨ c = '\n' ∨ c = '\t' ∨ c = '\r' then
      (if acc.isEmpty then [] else [String.mk acc.reverse]) ++ tokenizeAux cs []
    else
      tokenizeAux cs (c :: acc)

def tokenize (s : String) : List String :=
  tokenizeAux s.toList []

/-- A column definition of a CREATE TABLE statement: column name, type word,
and the remaining constraint words in order. -/
structure Column where
  name : String
  ty : String
  constraints : List String
deriving DecidableEq, Repr

/-- A parsed CREATE TABLE statement. -/
structure CreateTable where
  ifNotExists : Bool
  table : String
  columns : List Column
deriving DecidableEq, Repr

/-- Splits a token list into groups separated by comma tokens. -/
def splitOnComma : List String → List (List String)
  | [] => [[]]
  | t :: rest =>
    if t = "," then [] :: splitOnComma rest
    else
      match splitOnComma rest with
      | [] => [[t]]
      | g :: gs => (t :: g) :: gs

def parseColumn : List String → Option Column
  | n :: ty :: rest => some { name := n, ty := ty, constraints := rest }
  | _ => none

/-- Parses the token list of a parenthesized column list (everything after the
opening parenthesis, up to and including the closing one). -/
def parseColsTokens (ts : List String) : Option (List Column) :=
  match ts.reverse with
  | ")" :: revBody => (splitOnComma revBody.reverse).mapM parseColumn
  | _ => none

/-- Parses a CREATE TABLE [IF NOT EXISTS] name ( columns ) statement. -/
def parseCreateTable (sql : String) : Option CreateTable :=
  match tokenize sql with
  | "CREATE" :: "TABLE" :: "IF" :: "NOT" :: "EXISTS" :: tbl :: "(" :: rest =>
    (parseColsTokens rest).map (fun cols =>
      { ifNotExists := true, table := tbl, columns := cols })
  | "CREATE" :: "TABLE" :: tbl :: "(" :: rest =>
    (parseColsTokens rest).map (fun cols =>
      { ifNotExists := false, table := tbl, columns := cols })
  | _ => none

/-- The exact SQL string passed to batch_execute by setup_database
(src/main.rs lines 210-217), whitespace included. -/
def create_table_sql : String :=
  "CREATE TABLE IF NOT EXISTS users (\n            id SERIAL PRIMARY KEY,\n            name VARCHAR NOT NULL,\n            email VARCHAR NOT NULL\n        )"

/-- The statement setup_database actually issues, as a parsed structure. -/
def setup_users_table : CreateTable :=
  { ifNotExists := true
    table := "users"
    columns := [{ name := "id", ty := "SERIAL", constraints := ["PRIMARY", "KEY"] },
                { name := "name", ty := "VARCHAR", constraints := ["NOT", "NULL"] },
                { name := "email", ty := "VARCHAR", constraints := ["NOT", "NULL"] }] }

/-- Modelled from the spec: the schema the spec asserts, users(id SERIAL
PRIMARY KEY, name TEXT NOT NULL, email TEXT NOT NULL), created idempotently
if absent. -/
def spec_users_table : CreateTable :=
  { ifNotExists := true
    table := "users"
    columns := [{ name := "id", ty := "SERIAL", constraints := ["PRIMARY", "KEY"] },
                { name := "name", ty := "TEXT", constraints := ["NOT", "NULL"] },
                { name := "email", ty := "TEXT", constraints := ["NOT", "NULL"] }] }

/-- HTTP methods of the documented surface. -/
inductive Method where
  | GET
  | POST
  | PUT
  | DELETE
deriving DecidableEq, Repr

/-- A database row of the users table as read by the handlers:
row.get(0) is the id, row.get(1) the name, row.get(2) the email. -/
structure Row where
  id : Int
  name : String
  email : String
deriving DecidableEq, Repr

def rowToUser (r : Row) : User :=
  { id := some r.id, name := r.name, email := r.email }

/-- Opaque token for a failure reported by the database session (a failed
query, execute, or connect). -/
inductive DbErr where
  | failure
deriving DecidableEq, Repr

/-- Opaque token for a body that does not decode as a User. -/
inductive BodyErr where
  | failure
deriving DecidableEq, Repr

/-- A response body: plain text, or a serde_json serialized value. -/
inductive Content where
  | text (s : String)
  | json (j : Json)
deriving Repr

/-- An HTTP response of the running actix-web application. -/
structure Response where
  status : Nat
  body : Content
deriving Repr

/-- The actix-web default not-found response given to unmatched routes:
status 404 with an empty body. -/
def notFoundDefault : Response :=
  { status := 404, body := Content.text "" }

/-- Embeds get_users (src/main.rs lines 50-64), the only mounted handler:
locks the shared client, runs SELECT * from users, calls .unwrap() on the
result (modelled as none, a panic, when the query fails), maps each row to a
User and responds 200 with the JSON array. -/
def get_users (q : Except DbErr (List Row)) : Option Response :=
  match q with
  | Except.ok rows =>
    some { status := 200
           body := Content.json (Json.arr (rows.map (fun r => User.toJson (rowToUser r)))) }
  | Except.error _ => none

/-- The route table built by main (src/main.rs lines 189-194): App::new()
registers exactly one service, get_users, whose attribute macro binds method
GET and path /users. -/
def appRoutes : List (Method × String) :=
  [(Method.GET, "/users")]

/-- Dispatch outcome of the running application. -/
inductive Dispatched where
  | toGetUsers
  | defaultNotFound
deriving DecidableEq, Repr

def routeMatches (r : Method × String) (m : Method) (p : String) : Bool :=
  r.1 == m && r.2 == p

/-- Method-and-path dispatch over the registered routes; anything unmatched
falls to the framework default service. -/
def dispatch (m : Method) (p : String) : Dispatched :=
  match appRoutes.find? (fun r => routeMatches r m p) with
  | some _ => Dispatched.toGetUsers
  | none => Dispatched.defaultNotFound

/-- End-to-end response of the running application for one request, given the
outcome the database session would report for the SELECT of get_users. -/
def appRespond (m : Method) (p : String) (q : Except DbErr (List Row)) : Option Response :=
  match dispatch m p with
  | Dispatched.toGetUsers => get_users q
  | Dispatched.defaultNotFound => some notFoundDefault

/-- Modelled from the spec: the status-line constants OK_RESPONSE, NOT_FOUND
and INTERNAL_SERVER_ERROR used by the commented-out handlers are defined
nowhere in the repository; the HTTP surface table of the spec maps them to
200, 404 and 500. -/
inductive StatusLine where
  | OK_RESPONSE
  | NOT_FOUND
  | INTERNAL_SERVER_ERROR
deriving DecidableEq, Repr

/-- Modelled from the spec: the numeric status each status line denotes. -/
def StatusLine.code : StatusLine → Nat
  | StatusLine.OK_RESPONSE => 200
  | StatusLine.NOT_FOUND => 404
  | StatusLine.INTERNAL_SERVER_ERROR => 500

/-- Embeds handle_post_request (src/main.rs lines 68-85, inside the
commented-out block).  get_user_request_body is missing from the repository,
so the decoded body is a parameter (modelled from the spec: the body must
decode as a User).  On decode and connect success it runs the INSERT and
calls .unwrap() (none on failure), then answers OK_RESPONSE with the fixed
text User created; any decode or connect failure answers
INTERNAL_SERVER_ERROR with body Error. -/
def handle_post_request (body : Except BodyErr User) (conn : Except DbErr Unit)
    (ins : Except DbErr Nat) : Option (StatusLine × Content) :=
  match body, conn with
  | Except.ok _user, Except.ok _ =>
    match ins with
    | Except.ok _ => some (StatusLine.OK_RESPONSE, Content.text "User created")
    | Except.error _ => none
  | _, _ => some (StatusLine.INTERNAL_SERVER_ERROR, Content.text "Error")

/-- Embeds handle_get_request (src/main.rs lines 87-110, inside the
commented-out block).  get_id is missing from the repository, so the raw id
path segment is a parameter (modelled from the spec: the path parameter
string); it is parsed with str::parse::(i32).  query_one yields a row (200
with the serialized record) or an error, which covers the zero-row case (404
with User id not found).  Parse or connect failure answers 500 with Error.
The serde_json::to_string unwrap cannot fail for User and is modelled total. -/
def handle_get_request (idSeg : String) (conn : Except DbErr Unit)
    (qone : Except DbErr Row) : Option (StatusLine × Content) :=
  match parseI32 idSeg, conn with
  | some id, Except.ok _ =>
    match qone with
    | Except.ok row =>
      some (StatusLine.OK_RESPONSE, Content.json (User.toJson (rowToUser row)))
    | Except.error _ =>
      some (StatusLine.NOT_FOUND, Content.text ("User " ++ toString id ++ " not found"))
  | _, _ => some (StatusLine.INTERNAL_SERVER_ERROR, Content.text "Error")

/-- Embeds handle_put_request (src/main.rs lines 134-152, inside the
commented-out block): parses the id segment, decodes the body, connects,
runs the UPDATE with .unwrap() (none on failure) and, ignoring the affected
row count, answers OK_RESPONSE with User id updated; any parse, decode or
connect failure answers 500 with Error. -/
def handle_put_request (idSeg : String) (body : Except BodyErr User)
    (conn : Except DbErr Unit) (upd : Except DbErr Nat) : Option (StatusLine × Content) :=
  match parseI32 idSeg, body, conn with
  | some id, Except.ok _user, Except.ok _ =>
    match upd with
    | Except.ok _ => some (StatusLine.OK_RESPONSE, Content.text ("User " ++ toString id ++ " updated"))
    | Except.error _ => none
  | _, _, _ => some (StatusLine.INTERNAL_SERVER_ERROR, Content.text "Error")

/-- Embeds handle_delete_request (src/main.rs lines 154-171, inside the
commented-out block): parses the id segment, connects, runs the DELETE with
.unwrap() (none on failure); zero affected rows answer NOT_FOUND with User id
not found, otherwise OK_RESPONSE with User id deleted; parse or connect
failure answers 500 with Error. -/
def handle_delete_request (idSeg : String) (conn : Except DbErr Unit)
    (del : Except DbErr Nat) : Option (StatusLine × Content) :=
  match parseI32 idSeg, conn with
  | some id, Except.ok _ =>
    match del with
    | Except.ok rowsAffected =>
      if rowsAffected = 0 then
        some (StatusLine.NOT_FOUND, Content.text ("User " ++ toString id ++ " not found"))
      else
        some (StatusLine.OK_RESPONSE, Content.text ("User " ++ toString id ++ " deleted"))
    | Except.error _ => none
  | _, _ => some (StatusLine.INTERNAL_SERVER_ERROR, Content.text "Error")

/-- Phase of one request-handling task of get_users with respect to the
shared session: idle before db.lock() (line 53), querying while it holds the
MutexGuard and executes the SELECT (lines 53-63), finished once the guard is
dropped at the end of the handler body (line 64). -/
inductive Phase where
  | idle
  | querying
  | finished
deriving DecidableEq, Repr

/-- Global state of the running server: which task (if any) currently holds
the Mutex around the single Client created in main (src/main.rs lines
186-188), and the phase of every request task, indexed by task id. -/
structure SysState where
  holder : Option Nat
  phase : Nat → Phase

/-- Initially the mutex is free and every task is before its db.lock() call. -/
def initState : SysState :=
  { holder := none, phase := fun _ => Phase.idle }

/-- Transitions of the server, one per synchronization event in get_users:
lock models a successful return from db.lock() (only possible while no other
task holds the mutex, since std::sync::Mutex blocks otherwise), after which
the task executes its database statement; unlock models the drop of the
MutexGuard when the handler body ends. -/
inductive Step : SysState → SysState → Prop where
  | lock (s : SysState) (t : Nat) (hfree : s.holder = none)
      (hidle : s.phase t = Phase.idle) :
      Step s { holder := some t, phase := Function.update s.phase t Phase.querying }
  | unlock (s : SysState) (t : Nat) (hhold : s.holder = some t)
      (hq : s.phase t = Phase.querying) :
      Step s { holder := none, phase := Function.update s.phase t Phase.finished }

/-- States the server can reach from startup. -/
inductive Reachable : SysState → Prop where
  | init : Reachable initState
  | next {s s' : SysState} : Reachable s → Step s s' → Reachable s'

/-- Lock invariant: a task executing against the session holds the mutex. -/
def LockInv (s : SysState) : Prop :=
  ∀ t, s.phase t = Phase.querying → s.holder = some t

/-- A concrete reachable state in which task 0 holds the mutex and is
executing its statement. -/
def lockedState : SysState :=
  { holder := some 0, phase := Function.update (fun _ => Phase.idle) 0 Phase.querying }

/-! Helper lemmas shared by the claim theorems. -/

theorem users_path_ne (seg : String) : "/users" ≠ "/users/" ++ seg := by
  intro h
  have hlen := congrArg String.length h
  rw [String.length_append] at hlen
  rw [show ("/users" : String).length = 6 from rfl,
      show ("/users/" : String).length = 7 from rfl] at hlen
  omega

theorem dispatch_users_sub (m : Method) (seg : String) :
    dispatch m ("/users/" ++ seg) = Dispatched.defaultNotFound := by
  have hne : ("/users" == "/users/" ++ seg) = false :=
    beq_eq_false_iff_ne.mpr (users_path_ne seg)
  simp [dispatch, appRoutes, routeMatches, List.find?, hne]

theorem appRespond_users_sub (m : Method) (seg : String) (q : Except DbErr (List Row)) :
    appRespond m ("/users/" ++ seg) q = some notFoundDefault := by
  rw [appRespond, dispatch_users_sub]

theorem dispatch_non_get (m : Method) (p : String) (hm : m ≠ Method.GET) :
    dispatch m p = Dispatched.defaultNotFound := by
  have hne : (Method.GET == m) = false :=
    beq_eq_false_iff_ne.mpr (fun h => hm h.symm)
  simp [dispatch, appRoutes, routeMatches, List.find?, hne]

theorem reachable_lockInv {s : SysState} (h : Reachable s) : LockInv s := by
  induction h with
  | init =>
    intro t ht
    exact absurd ht (by simp [initState])
  | next _ hstep ih =>
    cases hstep with
    | lock t hfree hidle =>
      intro u hu
      by_cases hut : u = t
      · subst hut; rfl
      · simp only [Function.update_noteq hut] at hu
        have hcontra := ih u hu
        rw [hfree] at hcontra
        exact Option.noConfusion hcontra
    | unlock t hhold hq =>
      intro u hu
      by_cases hut : u = t
      · subst hut
        simp only [Function.update_same] at hu
        exact Phase.noConfusion hu
      · simp only [Function.update_noteq hut] at hu
        have hu2 := ih u hu
        exact absurd (Option.some.inj (hhold.symm.trans hu2)).symm hut

/-! Claim theorems. -/

/-- C1: at most one operation executes against the shared database session at
any instant.  In every reachable state of the server model, a task executing
its database statement holds the mutex created in main around the single
Client, and any two tasks simultaneously executing are equal; statements of
concurrently in-flight requests are therefore serialized by mutex acquisition
order. -/
theorem C1_session_mutual_exclusion {s : SysState} (hs : Reachable s)
    (t₁ t₂ : Nat) (h₁ : s.phase t₁ = Phase.querying) (h₂ : s.phase t₂ = Phase.querying) :
    s.holder = some t₁ ∧ s.holder = some t₂ ∧ t₁ = t₂ := by
  have inv := reachable_lockInv hs
  have e₁ := inv t₁ h₁
  have e₂ := inv t₂ h₂
  exact ⟨e₁, e₂, Option.some.inj (e₁.symm.trans e₂)⟩

/-- Witness for C1 at the reachable state in which task 0 has acquired the
mutex and is executing its statement. -/
theorem C1_session_mutual_exclusion_witness :
    Reachable lockedState ∧ lockedState.phase 0 = Phase.querying ∧
      (lockedState.holder = some 0 ∧ lockedState.holder = some 0 ∧ 0 = 0) := by
  have hstep : Step initState lockedState := Step.lock initState 0 rfl rfl
  have hr : Reachable lockedState := Reachable.next Reachable.init hstep
  have hp : lockedState.phase 0 = Phase.querying := rfl
  exact ⟨hr, hp, C1_session_mutual_exclusion hr 0 0 hp hp⟩

/-- C2 counterexample: the mounted list-users handler calls .unwrap() on the
SELECT result (src/main.rs line 55), so a database failure is not converted
into any HTTP response at all, let alone a 500: the handler panics (modelled
as none). -/
theorem C2_counterexample : get_users (Except.error DbErr.failure) = none := rfl

/-- C2 amended: a database failure in the list-users handler makes the
handler panic via .unwrap() (no response, in particular no 500 with a
failure body is produced); on success it responds 200 with the JSON array of
all rows. -/
theorem C2_amended_panic_on_failure (e : DbErr) (rows : List Row) :
    get_users (Except.error e) = none ∧
      get_users (Except.ok rows) =
        some { status := 200
               body := Content.json (Json.arr (rows.map (fun r => User.toJson (rowToUser r)))) } := by
  cases e
  exact ⟨rfl, rfl⟩

/-- C3: the application registers exactly one route, GET /users, and every
other method plus path combination of the documented surface (POST /users and
GET, PUT, DELETE on /users/{id} for any id segment) is dispatched to the
framework default not-found behavior. -/
theorem C3_single_route :
    appRoutes = [(Method.GET, "/users")] ∧
    dispatch Method.GET "/users" = Dispatched.toGetUsers ∧
    dispatch Method.POST "/users" = Dispatched.defaultNotFound ∧
    (∀ seg : String, dispatch Method.GET ("/users/" ++ seg) = Dispatched.defaultNotFound) ∧
    (∀ seg : String, dispatch Method.PUT ("/users/" ++ seg) = Dispatched.defaultNotFound) ∧
    (∀ seg : String, dispatch Method.DELETE ("/users/" ++ seg) = Dispatched.defaultNotFound) := by
  refine ⟨rfl, rfl, ?_, ?_, ?_, ?_⟩
  · exact dispatch_non_get Method.POST "/users" (by intro h; cases h)
  · exact fun seg => dispatch_users_sub Method.GET seg
  · exact fun seg => dispatch_users_sub Method.PUT seg
  · exact fun seg => dispatch_users_sub Method.DELETE seg

/-- C4 counterexample: a create request with a decodable body of non-empty
name and email (Ann, ann@x.com) receives the framework default 404 with empty
body, not a 201 with the created record, because no POST route is mounted;
even the commented-out create handler would answer 200 with the fixed text
User created. -/
theorem C4_counterexample :
    appRespond Method.POST "/users" (Except.ok []) = some notFoundDefault ∧
    notFoundDefault.status = 404 ∧
    handle_post_request (Except.ok { id := none, name := "Ann", email := "ann@x.com" })
        (Except.ok ()) (Except.ok 1) =
      some (StatusLine.OK_RESPONSE, Content.text "User created") ∧
    StatusLine.OK_RESPONSE.code = 200 :=
  ⟨rfl, rfl, rfl, rfl⟩

/-- C4 amended: every POST /users request receives the framework default
not-found response, since the create handler exists only in the commented-out
block and is never mounted; that handler itself, on a decoded body and a
connected client, answers 200 with the fixed text User created (no record, no
server-assigned id), and panics when the INSERT fails. -/
theorem C4_amended_post_unrouted (q : Except DbErr (List Row)) (u : User) (n : Nat)
    (e : DbErr) :
    appRespond Method.POST "/users" q = some notFoundDefault ∧
    handle_post_request (Except.ok u) (Except.ok ()) (Except.ok n) =
      some (StatusLine.OK_RESPONSE, Content.text "User created") ∧
    handle_post_request (Except.ok u) (Except.ok ()) (Except.error e) = none ∧
    StatusLine.OK_RESPONSE.code = 200 := by
  cases e
  exact ⟨rfl, rfl, rfl, rfl⟩

/-- C5 counterexample: with the users table holding exactly the row (1, Ann,
ann@x.com), GET /users/1 receives the framework default not-found response
(status 404, empty body), not a 200 with the record: no GET /users/{id} route
is mounted. -/
theorem C5_counterexample :
    appRespond Method.GET "/users/1" (Except.ok [{ id := 1, name := "Ann", email := "ann@x.com" }]) =
      some notFoundDefault ∧
    notFoundDefault.status = 404 :=
  ⟨rfl, rfl⟩

/-- C5 amended: for every integer id, GET /users/{id} receives the framework
default not-found response regardless of database contents, since the
single-user handler exists only in the commented-out block; that handler
itself answers 200 with the serialized record when the single-row lookup
yields a row and 404 with the text User id not found when it fails (which
covers the zero-row case). -/
theorem C5_amended_get_by_id_unrouted (seg : String) (q : Except DbErr (List Row))
    (id : Int) (row : Row) (e : DbErr) (hid : parseI32 seg = some id) :
    appRespond Method.GET ("/users/" ++ seg) q = some notFoundDefault ∧
    handle_get_request seg (Except.ok ()) (Except.ok row) =
      some (StatusLine.OK_RESPONSE, Content.json (User.toJson (rowToUser row))) ∧
    handle_get_request seg (Except.ok ()) (Except.error e) =
      some (StatusLine.NOT_FOUND, Content.text ("User " ++ toString id ++ " not found")) ∧
    StatusLine.OK_RESPONSE.code = 200 ∧ StatusLine.NOT_FOUND.code = 404 := by
  refine ⟨appRespond_users_sub Method.GET seg q, ?_, ?_, rfl, rfl⟩
  · simp [handle_get_request, hid]
  · cases e
    simp [handle_get_request, hid]

/-- Witness for C5 amended at segment 1, row (1, Ann, ann@x.com). -/
theorem C5_amended_get_by_id_unrouted_witness :
    parseI32 "1" = some 1 ∧
    (appRespond Method.GET ("/users/" ++ "1") (Except.ok []) = some notFoundDefault ∧
     handle_get_request "1" (Except.ok ()) (Except.ok { id := 1, name := "Ann", email := "ann@x.com" }) =
       some (StatusLine.OK_RESPONSE,
             Content.json (User.toJson (rowToUser { id := 1, name := "Ann", email := "ann@x.com" }))) ∧
     handle_get_request "1" (Except.ok ()) (Except.error DbErr.failure) =
       some (StatusLine.NOT_FOUND, Content.text ("User " ++ toString (1 : Int) ++ " not found")) ∧
     StatusLine.OK_RESPONSE.code = 200 ∧ StatusLine.NOT_FOUND.code = 404) :=
  ⟨by decide,
   C5_amended_get_by_id_unrouted "1" (Except.ok []) 1
     { id := 1, name := "Ann", email := "ann@x.com" } DbErr.failure (by decide)⟩

/-- C6 counterexample: for the non-integer segment abc, GET /users/abc
receives the framework default not-found response (status 404, not 500),
because no id-scoped route is mounted; and even the commented-out handler
answers 500 with the fixed body Error, which does not name the unparseable
value. -/
theorem C6_counterexample :
    appRespond Method.GET "/users/abc" (Except.ok []) = some notFoundDefault ∧
    notFoundDefault.status = 404 ∧
    handle_get_request "abc" (Except.ok ()) (Except.error DbErr.failure) =
      some (StatusLine.INTERNAL_SERVER_ERROR, Content.text "Error") :=
  ⟨rfl, rfl, rfl⟩

/-- C6 amended: for every path segment that does not parse as an integer, the
running application answers each id-scoped request (GET, PUT, DELETE on
/users/{id}) with the framework default not-found response, since none of
those routes is mounted; the commented-out handlers, on parse failure, answer
500 with the fixed body Error, which does not name the unparseable value. -/
theorem C6_amended_parse_failure (seg : String) (q : Except DbErr (List Row))
    (conn : Except DbErr Unit) (body : Except BodyErr User) (qone : Except DbErr Row)
    (n : Except DbErr Nat) (hbad : parseI32 seg = none) :
    appRespond Method.GET ("/users/" ++ seg) q = some notFoundDefault ∧
    appRespond Method.PUT ("/users/" ++ seg) q = some notFoundDefault ∧
    appRespond Method.DELETE ("/users/" ++ seg) q = some notFoundDefault ∧
    handle_get_request seg conn qone =
      some (StatusLine.INTERNAL_SERVER_ERROR, Content.text "Error") ∧
    handle_put_request seg body conn n =
      some (StatusLine.INTERNAL_SERVER_ERROR, Content.text "Error") ∧
    handle_delete_request seg conn n =
      some (StatusLine.INTERNAL_SERVER_ERROR, Content.text "Error") ∧
    StatusLine.INTERNAL_SERVER_ERROR.code = 500 := by
  refine ⟨appRespond_users_sub Method.GET seg q, appRespond_users_sub Method.PUT seg q,
         appRespond_users_sub Method.DELETE seg q, ?_, ?_, ?_, rfl⟩
  · cases conn <;> simp [handle_get_request, hbad]
  · cases conn <;> cases body <;> simp [handle_put_request, hbad]
  · cases conn <;> simp [handle_delete_request, hbad]

/-- Witness for C6 amended at segment abc. -/
theorem C6_amended_parse_failure_witness :
    parseI32 "abc" = none ∧
    (appRespond Method.GET ("/users/" ++ "abc") (Except.ok []) = some notFoundDefault ∧
     appRespond Method.PUT ("/users/" ++ "abc") (Except.ok []) = some notFoundDefault ∧
     appRespond Method.DELETE ("/users/" ++ "abc") (Except.ok []) = some notFoundDefault ∧
     handle_get_request "abc" (Except.ok ()) (Except.error DbErr.failure) =
       some (StatusLine.INTERNAL_SERVER_ERROR, Content.text "Error") ∧
     handle_put_request "abc" (Except.error BodyErr.failure) (Except.ok ()) (Except.ok 1) =
       some (StatusLine.INTERNAL_SERVER_ERROR, Content.text "Error") ∧
     handle_delete_request "abc" (Except.ok ()) (Except.ok 1) =
       some (StatusLine.INTERNAL_SERVER_ERROR, Content.text "Error") ∧
     StatusLine.INTERNAL_SERVER_ERROR.code = 500) :=
  ⟨by decide,
   C6_amended_parse_failure "abc" (Except.ok []) (Except.ok ())
     (Except.error BodyErr.failure) (Except.error DbErr.failure) (Except.ok 1) (by decide)⟩

/-- C7 counterexample: a PUT /users/1 request receives the framework default
not-found response (no PUT route is mounted); and the commented-out update
handler, on an update affecting zero rows, still answers 200 with the text
User 1 updated instead of the claimed 404 with empty body. -/
theorem C7_counterexample :
    appRespond Method.PUT "/users/1" (Except.ok []) = some notFoundDefault ∧
    notFoundDefault.status = 404 ∧
    handle_put_request "1" (Except.ok { id := none, name := "Ann", email := "ann@x.com" })
        (Except.ok ()) (Except.ok 0) =
      some (StatusLine.OK_RESPONSE, Content.text "User 1 updated") ∧
    StatusLine.OK_RESPONSE.code = 200 :=
  ⟨rfl, rfl, rfl, rfl⟩

/-- C7 amended: every PUT /users/{id} request receives the framework default
not-found response, since the update handler exists only in the commented-out
block; that handler itself, for every integer id and decoded body, ignores
the affected-row count and answers 200 with the text User id updated (never
404, never the record), and panics when the UPDATE fails. -/
theorem C7_amended_put_unrouted (seg : String) (q : Except DbErr (List Row)) (id : Int)
    (u : User) (rows : Nat) (e : DbErr) (hid : parseI32 seg = some id) :
    appRespond Method.PUT ("/users/" ++ seg) q = some notFoundDefault ∧
    handle_put_request seg (Except.ok u) (Except.ok ()) (Except.ok rows) =
      some (StatusLine.OK_RESPONSE, Content.text ("User " ++ toString id ++ " updated")) ∧
    handle_put_request seg (Except.ok u) (Except.ok ()) (Except.error e) = none ∧
    StatusLine.OK_RESPONSE.code = 200 := by
  refine ⟨appRespond_users_sub Method.PUT seg q, ?_, ?_, rfl⟩
  · simp [handle_put_request, hid]
  · cases e
    simp [handle_put_request, hid]

/-- Witness for C7 amended at segment 1, zero affected rows. -/
theorem C7_amended_put_unrouted_witness :
    parseI32 "1" = some 1 ∧
    (appRespond Method.PUT ("/users/" ++ "1") (Except.ok []) = some notFoundDefault ∧
     handle_put_request "1" (Except.ok { id := none, name := "Ann", email := "ann@x.com" })
         (Except.ok ()) (Except.ok 0) =
       some (StatusLine.OK_RESPONSE, Content.text ("User " ++ toString (1 : Int) ++ " updated")) ∧
     handle_put_request "1" (Except.ok { id := none, name := "Ann", email := "ann@x.com" })
         (Except.ok ()) (Except.error DbErr.failure) = none ∧
     StatusLine.OK_RESPONSE.code = 200) :=
  ⟨by decide,
   C7_amended_put_unrouted "1" (Except.ok []) 1
     { id := none, name := "Ann", email := "ann@x.com" } 0 DbErr.failure (by decide)⟩

/-- C8 counterexample: a DELETE /users/1 request receives the framework
default not-found response (status 404: no DELETE route is mounted), so a
first delete of an existing id does not return 204; and the commented-out
delete handler, on a delete affecting one row, answers 200 with the text
User 1 deleted instead of the claimed 204 with empty body. -/
theorem C8_counterexample :
    appRespond Method.DELETE "/users/1" (Except.ok [{ id := 1, name := "Ann", email := "ann@x.com" }]) =
      some notFoundDefault ∧
    notFoundDefault.status = 404 ∧
    handle_delete_request "1" (Except.ok ()) (Except.ok 1) =
      some (StatusLine.OK_RESPONSE, Content.text "User 1 deleted") ∧
    StatusLine.OK_RESPONSE.code = 200 :=
  ⟨rfl, rfl, rfl, rfl⟩

/-- C8 amended: every DELETE /users/{id} request receives the framework
default not-found response (so both the first and the second delete of an
existing id answer 404), since the delete handler exists only in the
commented-out block; that handler itself answers 404 with the text User id
not found when zero rows are affected and 200 with the text User id deleted
(not 204 with an empty body) when a nonzero number of rows are affected. -/
theorem C8_amended_delete_unrouted (seg : String) (q : Except DbErr (List Row)) (id : Int)
    (n : Nat) (hid : parseI32 seg = some id) (hn : n ≠ 0) :
    appRespond Method.DELETE ("/users/" ++ seg) q = some notFoundDefault ∧
    handle_delete_request seg (Except.ok ()) (Except.ok 0) =
      some (StatusLine.NOT_FOUND, Content.text ("User " ++ toString id ++ " not found")) ∧
    handle_delete_request seg (Except.ok ()) (Except.ok n) =
      some (StatusLine.OK_RESPONSE, Content.text ("User " ++ toString id ++ " deleted")) ∧
    StatusLine.NOT_FOUND.code = 404 ∧ StatusLine.OK_RESPONSE.code = 200 := by
  refine ⟨appRespond_users_sub Method.DELETE seg q, ?_, ?_, rfl, rfl⟩
  · simp [handle_delete_request, hid]
  · simp [handle_delete_request, hid, hn]

/-- Witness for C8 amended at segment 1, one affected row. -/
theorem C8_amended_delete_unrouted_witness :
    parseI32 "1" = some 1 ∧ (1 : Nat) ≠ 0 ∧
    (appRespond Method.DELETE ("/users/" ++ "1") (Except.ok []) = some notFoundDefault ∧
     handle_delete_request "1" (Except.ok ()) (Except.ok 0) =
       some (StatusLine.NOT_FOUND, Content.text ("User " ++ toString (1 : Int) ++ " not found")) ∧
     handle_delete_request "1" (Except.ok ()) (Except.ok 1) =
       some (StatusLine.OK_RESPONSE, Content.text ("User " ++ toString (1 : Int) ++ " deleted")) ∧
     StatusLine.NOT_FOUND.code = 404 ∧ StatusLine.OK_RESPONSE.code = 200) :=
  ⟨by decide, by decide,
   C8_amended_delete_unrouted "1" (Except.ok []) 1 1 (by decide) (by decide)⟩

/-- C9 counterexample: the CREATE TABLE statement issued by setup_database
declares name and email with type VARCHAR, not TEXT as the claim states, so
the created schema differs from the claimed one in the column types. -/
theorem C9_counterexample :
    parseCreateTable create_table_sql = some setup_users_table ∧
    setup_users_table ≠ spec_users_table ∧
    setup_users_table.columns.map Column.ty = ["SERIAL", "VARCHAR", "VARCHAR"] ∧
    spec_users_table.columns.map Column.ty = ["SERIAL", "TEXT", "TEXT"] :=
  ⟨rfl, by decide, rfl, rfl⟩

/-- C9 amended: at startup the service idempotently creates, if absent, a
table users with exactly the three columns id SERIAL PRIMARY KEY,
name VARCHAR NOT NULL, email VARCHAR NOT NULL (VARCHAR, not TEXT). -/
theorem C9_amended_schema :
    parseCreateTable create_table_sql = some setup_users_table ∧
    setup_users_table.ifNotExists = true ∧
    setup_users_table.table = "users" ∧
    setup_users_table.columns =
      [{ name := "id", ty := "SERIAL", constraints := ["PRIMARY", "KEY"] },
       { name := "name", ty := "VARCHAR", constraints := ["NOT", "NULL"] },
       { name := "email", ty := "VARCHAR", constraints := ["NOT", "NULL"] }] :=
  ⟨rfl, rfl, rfl, rfl⟩

/-- C10: serializing a User produces an object with exactly the keys id,
name, email; the id field is null exactly when the record has no id and the
number itself otherwise; and deserialization accepts what serialization
produces, returning the original record. -/
theorem C10_user_json_roundtrip (u : User) (h : idInRange u.id = true) :
    jsonKeys (User.toJson u) = ["id", "name", "email"] ∧
    (u.id = none → jsonField (User.toJson u) "id" = some Json.null) ∧
    (∀ n : Int, u.id = some n → jsonField (User.toJson u) "id" = some (Json.num n)) ∧
    User.fromJson (User.toJson u) = some u := by
  obtain ⟨i, nm, em⟩ := u
  cases i with
  | none =>
    refine ⟨rfl, fun _ => rfl, ?_, rfl⟩
    intro n hn
    exact Option.noConfusion hn
  | some k =>
    simp only [idInRange, decide_eq_true_eq] at h
    refine ⟨rfl, ?_, ?_, ?_⟩
    · intro hc
      exact Option.noConfusion hc
    · intro n hn
      rw [Option.some.inj hn] at *
      rfl
    · simp [User.fromJson, User.toJson, jsonField, decodeOptI32, decodeStr,
            List.find?, h.1, h.2]

/-- Witness for C10 at the record with id 7, name Ann, email ann@x.com. -/
theorem C10_user_json_roundtrip_witness :
    idInRange (User.mk (some 7) "Ann" "ann@x.com").id = true ∧
    (jsonKeys (User.toJson (User.mk (some 7) "Ann" "ann@x.com")) = ["id", "name", "email"] ∧
     ((User.mk (some 7) "Ann" "ann@x.com").id = none →
       jsonField (User.toJson (User.mk (some 7) "Ann" "ann@x.com")) "id" = some Json.null) ∧
     (∀ n : Int, (User.mk (some 7) "Ann" "ann@x.com").id = some n →
       jsonField (User.toJson (User.mk (some 7) "Ann" "ann@x.com")) "id" = some (Json.num n)) ∧
     User.fromJson (User.toJson (User.mk (some 7) "Ann" "ann@x.com")) =
       some (User.mk (some 7) "Ann" "ann@x.com")) :=
  ⟨by decide, C10_user_json_roundtrip (User.mk (some 7) "Ann" "ann@x.com") (by decide)⟩

end RustCrudApi
